import Mathlib

/-!
Shallow embedding of the inventory/sales application in `app.py`
(models `Produto`, `Cliente`, `Venda`; operations `nova_venda`, `editar`,
`deletar`, `importar_csv`, `limpar_vendas`, and the `relatorios` low-stock
list), together with theorems settling the specification's claims.
Monetary values (Python floats holding prices and totals) are modelled as
rationals; Python ints as `Int`; nullable columns as `Option`.
-/

namespace SiteEstoque

/-- Embedding of the `Produto` model (app.py lines 58-64): integer id,
name, integer quantity, sale price, nullable purchase cost, nullable
expiry label. -/
structure Produto where
  id : Nat
  nome : String
  quantidade : Int
  preco : Rat
  preco_compra : Option Rat
  validade : Option String
deriving DecidableEq

/-- Embedding of the `Cliente` model (app.py lines 66-71). -/
structure Cliente where
  id : Nat
  nome : String
  telefone : Option String
  email : Option String
  cidade : Option String
deriving DecidableEq

/-- Embedding of the `Venda` model (app.py lines 73-83): quantity sold,
snapshotted total value, required product reference, optional customer
reference.  The creation timestamp column is not needed by any claim and
is omitted. -/
structure Venda where
  id : Nat
  quantidade : Int
  valor_total : Rat
  produto_id : Nat
  cliente_id : Option Nat
deriving DecidableEq

/-- The persistent store: the three business tables. -/
structure Store where
  produtos : List Produto
  clientes : List Cliente
  vendas : List Venda
deriving DecidableEq

/-- `Produto.query.get(produto_id)`: primary-key lookup, `none` when the id
matches no row. -/
def findProduto (ps : List Produto) (pid : Nat) : Option Produto :=
  ps.find? (fun p => p.id == pid)

/-- Result of the POST branch of `nova_venda` (app.py lines 247-266).
`ok` carries the committed store; `estoqueInsuficiente` carries the
untouched store and the available quantity flashed to the user;
`erroAtributo` is the unhandled `AttributeError` raised by
`produto.quantidade` when `Produto.query.get` returned `None`, leaving the
session untouched. -/
inductive VendaResult where
  | ok (s : Store)
  | estoqueInsuficiente (s : Store) (disponivel : Int)
  | erroAtributo (s : Store)
deriving DecidableEq

/-- Embedding of the POST branch of `nova_venda` (app.py lines 247-266):
load the product; if `produto.quantidade < quantidade` flash insufficient
stock; otherwise snapshot `valor_total = produto.preco * quantidade`,
decrement the product quantity, append the new `Venda` row and commit both
mutations together.  `vid` is the autogenerated id of the new row. -/
def nova_venda (s : Store) (produto_id : Nat) (cliente_id : Option Nat)
    (quantidade : Int) (vid : Nat) : VendaResult :=
  match findProduto s.produtos produto_id with
  | none => .erroAtributo s
  | some produto =>
    if produto.quantidade < quantidade then
      .estoqueInsuficiente s produto.quantidade
    else
      let valor_total : Rat := produto.preco * (quantidade : Rat)
      .ok { s with
            produtos := s.produtos.map (fun p =>
              if p.id == produto_id then
                { p with quantidade := p.quantidade - quantidade }
              else p),
            vendas := s.vendas ++ [⟨vid, quantidade, valor_total, produto_id, cliente_id⟩] }

/-- Embedding of the POST branch of `editar` (app.py lines 168-182):
overwrite every field of the product with the given id from the submitted
form; a missing id leaves the store unchanged (the route 404s). -/
def editar (s : Store) (id : Nat) (nome : String) (quantidade : Int)
    (preco : Rat) (preco_compra : Option Rat) (validade : Option String) : Store :=
  { s with produtos := s.produtos.map (fun p =>
      if p.id == id then
        { p with nome := nome, quantidade := quantidade, preco := preco,
                 preco_compra := preco_compra, validade := validade }
      else p) }

/-- Embedding of `deletar` (app.py lines 184-191): remove the product row;
`Venda` rows are not cascaded. -/
def deletar (s : Store) (id : Nat) : Store :=
  { s with produtos := s.produtos.filter (fun p => !(p.id == id)) }

/-- Embedding of `limpar_vendas` (app.py lines 385-396): delete every
`Venda` row and commit; `falha` models a storage failure inside the `try`
block, after which `db.session.rollback()` restores the pre-call state. -/
def limpar_vendas (s : Store) (falha : Bool) : Store :=
  if falha then s else { s with vendas := [] }

/-- The `estoque_baixo` list of `relatorios` (app.py line 299): products
with quantity strictly below the fixed threshold 5. -/
def estoque_baixo (produtos : List Produto) : List Produto :=
  produtos.filter (fun p => p.quantidade < 5)

/-- The whitespace characters removed by Python's `str.strip()`. -/
def pySpace (c : Char) : Bool :=
  c == ' ' || c == '\t' || c == '\n' || c == '\x0d' ||
  c == '\x0b' || c == '\x0c'

/-- Python `s.strip()` as used on the name and expiry columns (app.py
lines 338 and 343): remove whitespace from both ends. -/
def pyStrip (s : String) : String :=
  ⟨((s.data.dropWhile pySpace).reverse.dropWhile pySpace).reverse⟩

/-- Python `s.replace(a, b)` for single-character arguments, as used for
the comma-to-period substitution (app.py lines 341-342). -/
def replaceChar (a b : Char) (s : String) : String :=
  ⟨s.data.map (fun c => if c == a then b else c)⟩

/-- Value of a digit string, most significant digit first. -/
def digitsToNat (l : List Char) : Nat :=
  l.foldl (fun acc c => acc * 10 + (c.toNat - 48)) 0

/-- A non-empty run of ASCII decimal digits, with its value. -/
def parseNatDigits? (l : List Char) : Option Nat :=
  if l.isEmpty then none
  else if l.all Char.isDigit then some (digitsToNat l) else none

/-- Python `int(s)` as used on the quantity column (app.py line 340):
strip surrounding whitespace, optional sign, decimal digits.  (Underscore
digit separators and non-ASCII digits, which CSV stock files do not use,
are outside the modelled domain.) -/
def pyInt? (s : String) : Option Int :=
  match (pyStrip s).data with
  | [] => none
  | c :: rest =>
    if c == '-' then (parseNatDigits? rest).map (fun n => -(n : Int))
    else if c == '+' then (parseNatDigits? rest).map (fun n => (n : Int))
    else (parseNatDigits? (c :: rest)).map (fun n => (n : Int))

/-- Unsigned decimal literal `digits [. digits]` with at least one digit,
valued as a rational (the sign is applied by the caller). -/
def pyDecimal? (l : List Char) : Option Rat :=
  match l.splitOn '.' with
  | [ip] => (parseNatDigits? ip).map (fun n => mkRat (n : Int) 1)
  | [ip, fp] =>
    match parseNatDigits? (ip ++ fp) with
    | some n => some (mkRat (n : Int) (10 ^ fp.length))
    | none => none
  | _ => none

/-- Python `float(s)` as used on the price and cost columns (app.py lines
341-342): strip whitespace, optional sign, decimal literal.  (Exponent,
infinity and NaN forms, which the decimal CSV columns do not use, are
outside the modelled domain.) -/
def pyFloat? (s : String) : Option Rat :=
  match (pyStrip s).data with
  | [] => none
  | c :: rest =>
    if c == '-' then (pyDecimal? rest).map (fun q => -q)
    else if c == '+' then pyDecimal? rest
    else pyDecimal? (c :: rest)

/-- Outcome of parsing one CSV data row inside the loop of `importar_csv`
(app.py lines 336-343): either the row is skipped (`continue`), or it
yields the trimmed name, quantity, sale price, cost (0 when the column is
absent or empty) and expiry label (empty when the column is absent). -/
inductive RowParse where
  | skip
  | ok (nome : String) (qtd : Int) (preco_venda : Rat) (preco_custo : Rat)
      (validade : String)
deriving DecidableEq

/-- Column access `row[i]` on a decoded CSV row; the default is never
reached because every use is guarded by the source's `len(row)` checks. -/
def cell (row : List String) (i : Nat) : String :=
  row.getD i ""

/-- Embedding of the parsing part of the row loop of `importar_csv`
(app.py lines 336-343): rows with fewer than 3 columns are skipped; the
name is trimmed and a blank name skips the row; `int(row[1])` and
`float(row[2].replace(',', '.'))` parse the quantity and sale price, the
cost column parses the same way when present and non-empty and defaults
to 0.0 otherwise, and a `ValueError` from any of these skips the row;
the expiry column is trimmed when present and defaults to the empty
string. -/
def parseRow (row : List String) : RowParse :=
  if row.length < 3 then .skip
  else
    let nome := pyStrip (cell row 0)
    if nome = "" then .skip
    else
      match pyInt? (cell row 1) with
      | none => .skip
      | some qtd =>
        match pyFloat? (replaceChar ',' '.' (cell row 2)) with
        | none => .skip
        | some preco_venda =>
          let validade := if 4 < row.length then pyStrip (cell row 4) else ""
          if 3 < row.length ∧ cell row 3 ≠ "" then
            match pyFloat? (replaceChar ',' '.' (cell row 3)) with
            | none => .skip
            | some preco_custo => .ok nome qtd preco_venda preco_custo validade
          else
            .ok nome qtd preco_venda 0 validade

/-- Session state threaded through the import loop: current product table,
the `count_novos` / `count_at` counters, and the next autogenerated
product id. -/
structure ImportState where
  produtos : List Produto
  count_novos : Nat
  count_at : Nat
  nextId : Nat
deriving DecidableEq

/-- The mutation applied to an existing product matched by name (app.py
lines 347-348): `prod.quantidade += qtd`, and the purchase cost is
overwritten only when the parsed cost is strictly positive. -/
def atualizaProduto (qtd : Int) (preco_custo : Rat) (p : Produto) : Produto :=
  { p with quantidade := p.quantidade + qtd,
           preco_compra := if 0 < preco_custo then some preco_custo
                           else p.preco_compra }

/-- Mutating the single object returned by
`Produto.query.filter_by(nome=nome).first()`: the first list element
satisfying the predicate is replaced, all others kept. -/
def updateFirst (f : Produto → Produto) (pred : Produto → Bool) :
    List Produto → List Produto
  | [] => []
  | p :: ps => if pred p then f p :: ps else p :: updateFirst f pred ps

/-- Embedding of one iteration of the import loop (app.py lines 335-353):
parse the row; on success either update the first product with the same
name (counting it in `count_at`) or add a new product with the row's
fields (counting it in `count_novos`). -/
def processRow (st : ImportState) (row : List String) : ImportState :=
  match parseRow row with
  | .skip => st
  | .ok nome qtd preco_venda preco_custo validade =>
    match st.produtos.find? (fun p => p.nome == nome) with
    | some _ =>
      { st with
        produtos := updateFirst (atualizaProduto qtd preco_custo)
                      (fun p => p.nome == nome) st.produtos,
        count_at := st.count_at + 1 }
    | none =>
      { st with
        produtos := st.produtos ++
          [⟨st.nextId, nome, qtd, preco_venda, some preco_custo, some validade⟩],
        count_novos := st.count_novos + 1,
        nextId := st.nextId + 1 }

/-- The import loop over the decoded CSV rows: `next(csv_input, None)`
discards the header row, then each remaining row is processed in order
(app.py lines 332-353). -/
def importar_csv_produtos (produtos : List Produto) (nextId : Nat)
    (rows : List (List String)) : ImportState :=
  (rows.drop 1).foldl processRow ⟨produtos, 0, 0, nextId⟩

/-- Embedding of `importar_csv` at store level (app.py lines 329-356):
the loop touches only the product table, and `db.session.commit()` lands
once after the loop; the committed store and the two flashed counters are
returned. -/
def importar_csv (s : Store) (nextId : Nat) (rows : List (List String)) :
    Store × Nat × Nat :=
  let st := importar_csv_produtos s.produtos nextId rows
  ({ s with produtos := st.produtos }, st.count_novos, st.count_at)

theorem findProduto_map_update (ps : List Produto) (pid : Nat)
    (f : Produto → Produto) (hf : ∀ p, (f p).id = p.id) :
    findProduto (ps.map (fun p => if p.id == pid then f p else p)) pid
      = (findProduto ps pid).map f := by
  induction ps with
  | nil => rfl
  | cons a ps ih =>
    by_cases h : a.id = pid
    · simp [findProduto, List.find?, h, hf, List.map_cons]
    · have hb : (a.id == pid) = false := by simpa using h
      simp only [List.map_cons, hb, if_neg, Bool.false_eq_true, if_false]
      simp only [findProduto, List.find?] at ih ⊢
      rw [hb]
      simpa using ih

theorem findProduto_eq_some_id (ps : List Produto) (pid : Nat) (p : Produto)
    (h : findProduto ps pid = some p) : p.id = pid := by
  have := List.find?_some h
  simpa using this

/-- C1: a successful `create_sale` of quantity `q` against an existing
product with `q ≤ quantity` commits a store in which the product's
quantity dropped by exactly `q` and exactly one new `Venda` row was
appended, whose `valor_total` is the product's price at the moment of the
sale times `q`. -/
theorem venda_sucesso_decrementa_e_registra (s : Store) (p : Produto)
    (pid : Nat) (cid : Option Nat) (q : Int) (vid : Nat)
    (hp : findProduto s.produtos pid = some p) (hq : q ≤ p.quantidade) :
    ∃ s', nova_venda s pid cid q vid = .ok s' ∧
      findProduto s'.produtos pid = some { p with quantidade := p.quantidade - q } ∧
      s'.vendas = s.vendas ++ [⟨vid, q, p.preco * (q : Rat), pid, cid⟩] := by
  have hlt : ¬ p.quantidade < q := not_lt.mpr hq
  refine ⟨{ s with
      produtos := s.produtos.map (fun x =>
        if x.id == pid then { x with quantidade := x.quantidade - q } else x),
      vendas := s.vendas ++ [⟨vid, q, p.preco * (q : Rat), pid, cid⟩] },
    ?_, ?_, rfl⟩
  · simp only [nova_venda, hp, if_neg hlt]
  · rw [show findProduto (s.produtos.map (fun x =>
        if x.id == pid then { x with quantidade := x.quantidade - q } else x)) pid
      = (findProduto s.produtos pid).map
          (fun x => { x with quantidade := x.quantidade - q }) from
      findProduto_map_update s.produtos pid _ (fun _ => rfl), hp]
    rfl

/-- C2: with the product present, `create_sale` fails with the
insufficient-stock flash exactly when the requested quantity exceeds the
available one; the flash reports the currently available quantity and the
store carried by the failure is untouched. -/
theorem venda_estoque_insuficiente_sem_mutacao (s : Store) (p : Produto)
    (pid : Nat) (cid : Option Nat) (q : Int) (vid : Nat)
    (hp : findProduto s.produtos pid = some p) :
    ((∃ s₀ d, nova_venda s pid cid q vid = .estoqueInsuficiente s₀ d) ↔
      p.quantidade < q) ∧
    (∀ s₀ d, nova_venda s pid cid q vid = .estoqueInsuficiente s₀ d →
      s₀ = s ∧ d = p.quantidade) := by
  simp only [nova_venda, hp]
  by_cases h : p.quantidade < q
  · simp only [if_pos h]
    exact ⟨⟨fun _ => h, fun _ => ⟨s, p.quantidade, rfl⟩⟩,
      fun s₀ d he => by
        cases he
        exact ⟨rfl, rfl⟩⟩
  · simp only [if_neg h]
    constructor
    · constructor
      · rintro ⟨s₀, d, he⟩
        cases he
      · intro hc
        exact absurd hc h
    · intro s₀ d he
      cases he

/-- C8: when `produto_id` matches no product, `Produto.query.get` returns
`None` and `produto.quantidade` raises an unhandled `AttributeError`
before any mutation, leaving the session state untouched; when the
product exists that error branch is unreachable. -/
theorem venda_produto_inexistente_erro (s : Store) (pid : Nat)
    (cid : Option Nat) (q : Int) (vid : Nat) :
    (findProduto s.produtos pid = none →
      nova_venda s pid cid q vid = .erroAtributo s) ∧
    (∀ p, findProduto s.produtos pid = some p →
      ∀ s₀, nova_venda s pid cid q vid ≠ .erroAtributo s₀) := by
  constructor
  · intro h
    simp [nova_venda, h]
  · intro p hp s₀
    simp only [nova_venda, hp]
    by_cases h : p.quantidade < q
    · simp [if_pos h]
    · simp [if_neg h]

/-- C9: with a non-negative current stock, `create_sale` never commits a
negative stock; and a negative requested quantity passes the stock check,
is accepted, increases the stock by its absolute value, and records a
sale whose `valor_total` is negative whenever the price is positive. -/
theorem venda_quantidade_negativa_aceita (s : Store) (p : Produto)
    (pid : Nat) (cid : Option Nat) (q : Int) (vid : Nat)
    (hp : findProduto s.produtos pid = some p) (h0 : 0 ≤ p.quantidade) :
    (∀ s', nova_venda s pid cid q vid = .ok s' →
      ∀ p', findProduto s'.produtos pid = some p' → 0 ≤ p'.quantidade) ∧
    (q < 0 →
      ∃ s', nova_venda s pid cid q vid = .ok s' ∧
        findProduto s'.produtos pid = some { p with quantidade := p.quantidade + (-q) } ∧
        ∃ v, s'.vendas = s.vendas ++ [v] ∧ v.quantidade = q ∧
          (0 < p.preco → v.valor_total < 0)) := by
  constructor
  · intro s' hok p' hp'
    simp only [nova_venda, hp] at hok
    by_cases h : p.quantidade < q
    · rw [if_pos h] at hok
      cases hok
    · rw [if_neg h] at hok
      cases hok
      simp only [findProduto_map_update s.produtos pid
          (fun x => { x with quantidade := x.quantidade - q }) (fun _ => rfl),
        hp, Option.map_some', Option.some.injEq] at hp'
      rw [← hp']
      exact sub_nonneg.mpr (not_lt.mp h)
  · intro hneg
    have hlt : ¬ p.quantidade < q := not_lt.mpr (le_trans hneg.le h0)
    refine ⟨{ s with
        produtos := s.produtos.map (fun x =>
          if x.id == pid then { x with quantidade := x.quantidade - q } else x),
        vendas := s.vendas ++ [⟨vid, q, p.preco * (q : Rat), pid, cid⟩] },
      ?_, ?_, ?_⟩
    · simp only [nova_venda, hp, if_neg hlt]
    · rw [show findProduto (s.produtos.map (fun x =>
          if x.id == pid then { x with quantidade := x.quantidade - q } else x)) pid
        = (findProduto s.produtos pid).map
            (fun x => { x with quantidade := x.quantidade - q }) from
        findProduto_map_update s.produtos pid _ (fun _ => rfl), hp]
      simp [sub_eq_add_neg]
    · refine ⟨⟨vid, q, p.preco * (q : Rat), pid, cid⟩, rfl, rfl, fun hpos => ?_⟩
      have hq : ((q : Int) : Rat) < 0 := by exact_mod_cast hneg
      exact mul_neg_of_pos_of_neg hpos hq

/-- C4: a `Venda` row's `valor_total` is fixed at creation: product edit,
product delete and CSV import leave the sales table untouched; a later
sale only appends, keeping every existing row (with its `valor_total`)
intact; failed sales leave the sales table unchanged; and the reporting
route only reads.  Later price changes via `editar` therefore never touch
any existing `valor_total`. -/
theorem valor_total_fixado_na_criacao (s : Store) (id : Nat) (nome : String)
    (qtd : Int) (preco : Rat) (pc : Option Rat) (vl : Option String)
    (pid : Nat) (cid : Option Nat) (q : Int) (vid nid : Nat)
    (rows : List (List String)) :
    (editar s id nome qtd preco pc vl).vendas = s.vendas ∧
    (deletar s id).vendas = s.vendas ∧
    ((importar_csv s nid rows).1).vendas = s.vendas ∧
    (∀ s', nova_venda s pid cid q vid = .ok s' → ∀ v ∈ s.vendas, v ∈ s'.vendas) ∧
    (∀ s' d, nova_venda s pid cid q vid = .estoqueInsuficiente s' d →
      s'.vendas = s.vendas) ∧
    (∀ s', nova_venda s pid cid q vid = .erroAtributo s' → s'.vendas = s.vendas) := by
  refine ⟨rfl, rfl, rfl, ?_, ?_, ?_⟩
  · intro s' hok v hv
    rcases hfind : findProduto s.produtos pid with _ | p
    · simp only [nova_venda, hfind] at hok
      cases hok
    · simp only [nova_venda, hfind] at hok
      by_cases h : p.quantidade < q
      · rw [if_pos h] at hok
        cases hok
      · rw [if_neg h] at hok
        cases hok
        exact List.mem_append_left _ hv
  · intro s' d he
    rcases hfind : findProduto s.produtos pid with _ | p
    · simp only [nova_venda, hfind] at he
      cases he
    · simp only [nova_venda, hfind] at he
      by_cases h : p.quantidade < q
      · rw [if_pos h] at he
        cases he
        rfl
      · rw [if_neg h] at he
        cases he
  · intro s' he
    rcases hfind : findProduto s.produtos pid with _ | p
    · simp only [nova_venda, hfind] at he
      cases he
      rfl
    · simp only [nova_venda, hfind] at he
      by_cases h : p.quantidade < q
      · rw [if_pos h] at he
        cases he
      · rw [if_neg h] at he
        cases he

/-- C5: `clear_all_sales` empties the sales table and nothing else on
success, and a failure inside the transaction rolls every sale row back,
leaving the whole store as it was before the call. -/
theorem limpar_vendas_transacional (s : Store) :
    (limpar_vendas s false).vendas = [] ∧
    (limpar_vendas s false).produtos = s.produtos ∧
    (limpar_vendas s false).clientes = s.clientes ∧
    limpar_vendas s true = s := by
  refine ⟨?_, ?_, ?_, ?_⟩ <;> simp [limpar_vendas]

/-- C7: the low-stock report lists exactly the products whose quantity is
strictly below 5. -/
theorem estoque_baixo_exatamente_menor_que_cinco (produtos : List Produto)
    (p : Produto) :
    p ∈ estoque_baixo produtos ↔ p ∈ produtos ∧ p.quantidade < 5 := by
  simp [estoque_baixo]

theorem updateFirst_length (f : Produto → Produto) (pred : Produto → Bool)
    (l : List Produto) : (updateFirst f pred l).length = l.length := by
  induction l with
  | nil => rfl
  | cons a l ih =>
    by_cases h : pred a <;> simp [updateFirst, h, ih]

theorem updateFirst_append (f : Produto → Produto) (pred : Produto → Bool)
    (l₁ l₂ : List Produto) (p : Produto)
    (h₁ : ∀ x ∈ l₁, pred x = false) (hp : pred p = true) :
    updateFirst f pred (l₁ ++ p :: l₂) = l₁ ++ f p :: l₂ := by
  induction l₁ with
  | nil => simp [updateFirst, hp]
  | cons a l ih =>
    have ha := h₁ a (by simp)
    simp only [List.cons_append, updateFirst, ha, Bool.false_eq_true, if_false,
      List.cons.injEq, true_and]
    exact ih (fun x hx => h₁ x (by simp [hx]))

theorem find?_append_cons (pred : Produto → Bool) (l₁ l₂ : List Produto)
    (p : Produto) (h₁ : ∀ x ∈ l₁, pred x = false) (hp : pred p = true) :
    (l₁ ++ p :: l₂).find? pred = some p := by
  induction l₁ with
  | nil => simp [List.find?, hp]
  | cons a l ih =>
    have ha := h₁ a (by simp)
    simp only [List.cons_append, List.find?, ha]
    exact ih (fun x hx => h₁ x (by simp [hx]))

/-- C3: a successfully parsed import row is an upsert keyed by the trimmed
name: with a matching product present, its stock grows by the row's
quantity, its cost is overwritten exactly when the parsed cost is
strictly positive, the table keeps its length and the updated counter
steps; with no match, a new product with the row's fields is appended and
the created counter steps. -/
theorem importar_linha_upsert (st : ImportState) (row : List String)
    (nome : String) (qtd : Int) (pv pc : Rat) (vl : String)
    (hrow : parseRow row = .ok nome qtd pv pc vl) :
    (∀ p, st.produtos.find? (fun x => x.nome == nome) = some p →
      (processRow st row).produtos
          = updateFirst (atualizaProduto qtd pc) (fun x => x.nome == nome)
              st.produtos ∧
      (processRow st row).produtos.length = st.produtos.length ∧
      (processRow st row).count_at = st.count_at + 1 ∧
      (processRow st row).count_novos = st.count_novos ∧
      (atualizaProduto qtd pc p).quantidade = p.quantidade + qtd ∧
      (0 < pc → (atualizaProduto qtd pc p).preco_compra = some pc) ∧
      (¬ 0 < pc → (atualizaProduto qtd pc p).preco_compra = p.preco_compra)) ∧
    (st.produtos.find? (fun x => x.nome == nome) = none →
      (processRow st row).produtos
          = st.produtos ++ [⟨st.nextId, nome, qtd, pv, some pc, some vl⟩] ∧
      (processRow st row).count_novos = st.count_novos + 1 ∧
      (processRow st row).count_at = st.count_at) := by
  constructor
  · intro p hfind
    refine ⟨?_, ?_, ?_, ?_, rfl, ?_, ?_⟩
    · simp only [processRow, hrow, hfind]
    · simp only [processRow, hrow, hfind]
      exact updateFirst_length _ _ _
    · simp only [processRow, hrow, hfind]
    · simp only [processRow, hrow, hfind]
    · intro h
      simp [atualizaProduto, if_pos h]
    · intro h
      simp [atualizaProduto, if_neg h]
  · intro hfind
    refine ⟨?_, ?_, ?_⟩ <;> simp only [processRow, hrow, hfind]

/-- C10: when several stored products share the row's name, the import
updates only the first of them, keeps every other product (in particular
the later products of the same name) unchanged in place, and appends
nothing. -/
theorem importar_nome_duplicado (st : ImportState) (row : List String)
    (nome : String) (qtd : Int) (pv pc : Rat) (vl : String)
    (l₁ l₂ : List Produto) (p : Produto)
    (hrow : parseRow row = .ok nome qtd pv pc vl)
    (hst : st.produtos = l₁ ++ p :: l₂)
    (h₁ : ∀ x ∈ l₁, x.nome ≠ nome) (hp : p.nome = nome) :
    (processRow st row).produtos = l₁ ++ atualizaProduto qtd pc p :: l₂ ∧
    (processRow st row).produtos.length = st.produtos.length := by
  have h₁' : ∀ x ∈ l₁, (x.nome == nome) = false := by
    intro x hx
    simpa using h₁ x hx
  have hp' : (p.nome == nome) = true := by simpa using hp
  have hfind : st.produtos.find? (fun x => x.nome == nome) = some p := by
    rw [hst]
    exact find?_append_cons _ _ _ _ h₁' hp'
  simp only [processRow, hrow, hfind]
  constructor
  · rw [hst]
    exact updateFirst_append _ _ _ _ _ h₁' hp'
  · exact updateFirst_length _ _ _

/-- C6: the per-row import rules: rows with fewer than 3 columns are
skipped; a blank trimmed name skips the row; quantity parses with `int`,
price and cost with `float` after the comma-to-period substitution; the
cost defaults to 0 when its column is absent or empty and the expiry to
the empty string when absent; a failed numeric parse skips the row; a
skipped row leaves the import state (products and both counters)
untouched; and the header row is discarded unexamined. -/
theorem importar_csv_regras_de_parse :
    (∀ row : List String, row.length < 3 → parseRow row = .skip) ∧
    (∀ row : List String, pyStrip (cell row 0) = "" → parseRow row = .skip) ∧
    (∀ row : List String, 3 ≤ row.length → pyStrip (cell row 0) ≠ "" →
      pyInt? (cell row 1) = none → parseRow row = .skip) ∧
    (∀ row : List String, 3 ≤ row.length → pyStrip (cell row 0) ≠ "" →
      pyFloat? (replaceChar ',' '.' (cell row 2)) = none →
      parseRow row = .skip) ∧
    (∀ row : List String, 3 < row.length → cell row 3 ≠ "" →
      pyFloat? (replaceChar ',' '.' (cell row 3)) = none →
      parseRow row = .skip) ∧
    (∀ row nome qtd pv pc vl, parseRow row = .ok nome qtd pv pc vl →
      3 ≤ row.length ∧
      nome = pyStrip (cell row 0) ∧ nome ≠ "" ∧
      pyInt? (cell row 1) = some qtd ∧
      pyFloat? (replaceChar ',' '.' (cell row 2)) = some pv ∧
      ((3 < row.length ∧ cell row 3 ≠ "") →
        pyFloat? (replaceChar ',' '.' (cell row 3)) = some pc) ∧
      (¬ (3 < row.length ∧ cell row 3 ≠ "") → pc = 0) ∧
      (¬ 4 < row.length → vl = "") ∧
      (4 < row.length → vl = pyStrip (cell row 4))) ∧
    (∀ st row, parseRow row = .skip → processRow st row = st) ∧
    (∀ ps nid h₁ h₂ rows, importar_csv_produtos ps nid (h₁ :: rows)
        = importar_csv_produtos ps nid (h₂ :: rows)) := by
  refine ⟨?_, ?_, ?_, ?_, ?_, ?_, ?_, ?_⟩
  · intro row h
    simp only [parseRow, if_pos h]
  · intro row h
    by_cases hl : row.length < 3
    · simp only [parseRow, if_pos hl]
    · simp only [parseRow, if_neg hl]
      rw [if_pos h]
  · intro row hl3 hn h
    have hl : ¬ row.length < 3 := not_lt.mpr hl3
    simp only [parseRow, if_neg hl, if_neg hn, h]
  · intro row hl3 hn h
    have hl : ¬ row.length < 3 := not_lt.mpr hl3
    simp only [parseRow, if_neg hl, if_neg hn, h]
    cases hi : pyInt? (cell row 1) with
    | none => rfl
    | some qtd => simp only [h]
  · intro row h3 hne h
    have hl : ¬ row.length < 3 := not_lt.mpr (le_of_lt h3)
    by_cases hn : pyStrip (cell row 0) = ""
    · simp only [parseRow, if_neg hl]
      rw [if_pos hn]
    · simp only [parseRow, if_neg hl, if_neg hn]
      cases hi : pyInt? (cell row 1) with
      | none => rfl
      | some qtd =>
        simp only []
        cases hf : pyFloat? (replaceChar ',' '.' (cell row 2)) with
        | none => rfl
        | some pv =>
          simp only [if_pos (And.intro h3 hne), h]
  · intro row nome qtd pv pc vl h
    by_cases hl : row.length < 3
    · simp only [parseRow, if_pos hl] at h
      cases h
    · refine ⟨not_lt.mp hl, ?_⟩
      by_cases hn : pyStrip (cell row 0) = ""
      · simp only [parseRow, if_neg hl] at h
        rw [if_pos hn] at h
        cases h
      · simp only [parseRow, if_neg hl, if_neg hn] at h
        cases hi : pyInt? (cell row 1) with
        | none =>
          simp only [hi] at h
          cases h
        | some qtd' =>
          simp only [hi] at h
          cases hf : pyFloat? (replaceChar ',' '.' (cell row 2)) with
          | none =>
            simp only [hf] at h
            cases h
          | some pv' =>
            simp only [hf] at h
            by_cases hc : 3 < row.length ∧ cell row 3 ≠ ""
            · cases hg : pyFloat? (replaceChar ',' '.' (cell row 3)) with
              | none =>
                simp only [if_pos hc, hg] at h
                cases h
              | some pc' =>
                simp only [if_pos hc, hg, RowParse.ok.injEq] at h
                obtain ⟨h1, h2, h3, h4, h5⟩ := h
                subst h1
                subst h2
                subst h3
                subst h4
                subst h5
                refine ⟨rfl, hn, rfl, rfl, fun _ => rfl,
                  fun hb => absurd hc hb, ?_, ?_⟩
                · intro h4
                  simp [if_neg h4]
                · intro h4
                  simp [if_pos h4]
            · simp only [if_neg hc, RowParse.ok.injEq] at h
              obtain ⟨h1, h2, h3, h4, h5⟩ := h
              subst h1
              subst h2
              subst h3
              subst h4
              subst h5
              refine ⟨rfl, hn, rfl, rfl, fun hb => absurd hb hc, fun _ => rfl,
                ?_, ?_⟩
              · intro h4
                simp [if_neg h4]
              · intro h4
                simp [if_pos h4]
  · intro st row h
    simp [processRow, h]
  · intro ps nid h₁ h₂ rows
    rfl



/-- Witness for C1 at a concrete store. -/
theorem venda_sucesso_decrementa_e_registra_testemunha :
    ∃ s', nova_venda ⟨[⟨1, "Camiseta", 10, 5, none, none⟩], [], []⟩ 1 none 3 8 = .ok s' ∧
      findProduto s'.produtos 1 = some ⟨1, "Camiseta", 7, 5, none, none⟩ ∧
      s'.vendas = [⟨8, 3, (5 : Rat) * ((3 : Int) : Rat), 1, none⟩] :=
  venda_sucesso_decrementa_e_registra ⟨[⟨1, "Camiseta", 10, 5, none, none⟩], [], []⟩
    ⟨1, "Camiseta", 10, 5, none, none⟩ 1 none 3 8 (by decide) (by decide)

/-- Witness for C2 at a concrete store. -/
theorem venda_estoque_insuficiente_sem_mutacao_testemunha :
    ∃ s₀ d, nova_venda ⟨[⟨1, "Camiseta", 2, 5, none, none⟩], [], []⟩ 1 none 5 9
      = .estoqueInsuficiente s₀ d :=
  (venda_estoque_insuficiente_sem_mutacao ⟨[⟨1, "Camiseta", 2, 5, none, none⟩], [], []⟩
    ⟨1, "Camiseta", 2, 5, none, none⟩ 1 none 5 9 (by decide)).1.mpr (by decide)

/-- Witness for C3 at a concrete row and product table. -/
theorem importar_linha_upsert_testemunha :
    (∀ p, (⟨[⟨1, "Camiseta", 4, 6, none, none⟩], 0, 0, 2⟩ : ImportState).produtos.find?
        (fun x => x.nome == "Camiseta") = some p →
      (processRow ⟨[⟨1, "Camiseta", 4, 6, none, none⟩], 0, 0, 2⟩
          ["Camiseta", "5", "10,50", "2", ""]).produtos
          = updateFirst (atualizaProduto 5 (mkRat 2 1)) (fun x => x.nome == "Camiseta")
              [⟨1, "Camiseta", 4, 6, none, none⟩] ∧
      (processRow ⟨[⟨1, "Camiseta", 4, 6, none, none⟩], 0, 0, 2⟩
          ["Camiseta", "5", "10,50", "2", ""]).produtos.length = 1 ∧
      (processRow ⟨[⟨1, "Camiseta", 4, 6, none, none⟩], 0, 0, 2⟩
          ["Camiseta", "5", "10,50", "2", ""]).count_at = 1 ∧
      (processRow ⟨[⟨1, "Camiseta", 4, 6, none, none⟩], 0, 0, 2⟩
          ["Camiseta", "5", "10,50", "2", ""]).count_novos = 0 ∧
      (atualizaProduto 5 (mkRat 2 1) p).quantidade = p.quantidade + 5 ∧
      (0 < mkRat 2 1 → (atualizaProduto 5 (mkRat 2 1) p).preco_compra = some (mkRat 2 1)) ∧
      (¬ 0 < mkRat 2 1 → (atualizaProduto 5 (mkRat 2 1) p).preco_compra = p.preco_compra)) ∧
    ((⟨[⟨1, "Camiseta", 4, 6, none, none⟩], 0, 0, 2⟩ : ImportState).produtos.find?
        (fun x => x.nome == "Camiseta") = none →
      (processRow ⟨[⟨1, "Camiseta", 4, 6, none, none⟩], 0, 0, 2⟩
          ["Camiseta", "5", "10,50", "2", ""]).produtos
          = [⟨1, "Camiseta", 4, 6, none, none⟩] ++ [⟨2, "Camiseta", 5, mkRat 21 2, some (mkRat 2 1), some ""⟩] ∧
      (processRow ⟨[⟨1, "Camiseta", 4, 6, none, none⟩], 0, 0, 2⟩
          ["Camiseta", "5", "10,50", "2", ""]).count_novos = 1 ∧
      (processRow ⟨[⟨1, "Camiseta", 4, 6, none, none⟩], 0, 0, 2⟩
          ["Camiseta", "5", "10,50", "2", ""]).count_at = 0) :=
  importar_linha_upsert ⟨[⟨1, "Camiseta", 4, 6, none, none⟩], 0, 0, 2⟩
    ["Camiseta", "5", "10,50", "2", ""] "Camiseta" 5 (mkRat 21 2) (mkRat 2 1) ""
    (by decide)

/-- Witness for C4 at a concrete store. -/
theorem valor_total_fixado_na_criacao_testemunha :
    (editar ⟨[], [], [⟨1, 2, 10, 1, none⟩]⟩ 1 "X" 2 3 none none).vendas
      = [⟨1, 2, 10, 1, none⟩] :=
  (valor_total_fixado_na_criacao ⟨[], [], [⟨1, 2, 10, 1, none⟩]⟩ 1 "X" 2 3 none none
    1 none 1 1 1 []).1

/-- Witness for C5 at a concrete store. -/
theorem limpar_vendas_transacional_testemunha :
    (limpar_vendas ⟨[], [], [⟨1, 2, 10, 1, none⟩]⟩ false).vendas = [] ∧
    limpar_vendas ⟨[], [], [⟨1, 2, 10, 1, none⟩]⟩ true = ⟨[], [], [⟨1, 2, 10, 1, none⟩]⟩ :=
  ⟨(limpar_vendas_transacional ⟨[], [], [⟨1, 2, 10, 1, none⟩]⟩).1,
   (limpar_vendas_transacional ⟨[], [], [⟨1, 2, 10, 1, none⟩]⟩).2.2.2⟩

/-- Witness for C6 at concrete rows. -/
theorem importar_csv_regras_de_parse_testemunha :
    parseRow ["so", "duas"] = .skip ∧
    processRow ⟨[], 0, 0, 1⟩ ["so", "duas"] = ⟨[], 0, 0, 1⟩ :=
  ⟨importar_csv_regras_de_parse.1 ["so", "duas"] (by decide),
   (importar_csv_regras_de_parse.2.2.2.2.2.2.1) ⟨[], 0, 0, 1⟩ ["so", "duas"]
     (importar_csv_regras_de_parse.1 ["so", "duas"] (by decide))⟩

/-- Witness for C7 at a concrete product. -/
theorem estoque_baixo_exatamente_menor_que_cinco_testemunha :
    (⟨1, "Camiseta", 4, 5, none, none⟩ : Produto)
      ∈ estoque_baixo [⟨1, "Camiseta", 4, 5, none, none⟩] :=
  (estoque_baixo_exatamente_menor_que_cinco [⟨1, "Camiseta", 4, 5, none, none⟩]
    ⟨1, "Camiseta", 4, 5, none, none⟩).mpr (by decide)

/-- Witness for C8 at a concrete store with no products. -/
theorem venda_produto_inexistente_erro_testemunha :
    nova_venda ⟨[], [], []⟩ 1 none 1 1 = .erroAtributo ⟨[], [], []⟩ :=
  (venda_produto_inexistente_erro ⟨[], [], []⟩ 1 none 1 1).1 (by decide)

/-- Witness for C9 at a concrete store and negative quantity. -/
theorem venda_quantidade_negativa_aceita_testemunha :
    ∃ s', nova_venda ⟨[⟨1, "Camiseta", 10, 5, none, none⟩], [], []⟩ 1 none (-4) 3 = .ok s' ∧
      findProduto s'.produtos 1 = some ⟨1, "Camiseta", 14, 5, none, none⟩ ∧
      ∃ v, s'.vendas = [v] ∧ v.quantidade = -4 ∧
        ((0 : Rat) < 5 → v.valor_total < 0) :=
  (venda_quantidade_negativa_aceita ⟨[⟨1, "Camiseta", 10, 5, none, none⟩], [], []⟩
    ⟨1, "Camiseta", 10, 5, none, none⟩ 1 none (-4) 3 (by decide) (by decide)).2 (by decide)

/-- Witness for C10 at a table with two products of the same name. -/
theorem importar_nome_duplicado_testemunha :
    (processRow ⟨[⟨1, "Camiseta", 4, 6, none, none⟩, ⟨2, "Camiseta", 9, 7, none, none⟩], 0, 0, 3⟩
        ["Camiseta", "5", "10,50", "", ""]).produtos
      = [] ++ atualizaProduto 5 0 ⟨1, "Camiseta", 4, 6, none, none⟩
          :: [⟨2, "Camiseta", 9, 7, none, none⟩] ∧
    (processRow ⟨[⟨1, "Camiseta", 4, 6, none, none⟩, ⟨2, "Camiseta", 9, 7, none, none⟩], 0, 0, 3⟩
        ["Camiseta", "5", "10,50", "", ""]).produtos.length = 2 :=
  importar_nome_duplicado
    ⟨[⟨1, "Camiseta", 4, 6, none, none⟩, ⟨2, "Camiseta", 9, 7, none, none⟩], 0, 0, 3⟩
    ["Camiseta", "5", "10,50", "", ""] "Camiseta" 5 (mkRat 21 2) 0 ""
    [] [⟨2, "Camiseta", 9, 7, none, none⟩] ⟨1, "Camiseta", 4, 6, none, none⟩
    (by decide) rfl (by simp) rfl

end SiteEstoque
